import Mathlib

/-!
Verification of the lyon path crate core (src/path/src/lib.rs) against its
specification. Machine integers are modelled as `Nat`/`Int` with explicit
bounds and reductions modulo powers of two; Rust arithmetic overflow (a
program error that panics under overflow checks) is modelled as `none`.
-/

namespace Lyon

/-- Size of the 32-bit unsigned range: u32 values are naturals below this. -/
def u32Size : Nat := 2 ^ 32

/-- Size of the 16-bit unsigned range. -/
def u16Size : Nat := 2 ^ 16

/-- Value of u32 MAX, the largest 32-bit unsigned integer. -/
def u32MAXval : Nat := u32Size - 1

/-- Embeds `pub struct VertexId(pub Index);` where `type Index = u32`.
The wrapped value is a natural; u32 well-formedness (`val < u32Size`) is
carried as a hypothesis where a theorem needs it. -/
structure VertexId where
  val : Nat
  deriving DecidableEq, Repr

/-- Embeds `pub const INVALID: VertexId = VertexId(u32::MAX);`. -/
def VertexId.INVALID : VertexId := ⟨u32MAXval⟩

/-- Embeds `pub fn offset(&self) -> Index { self.0 }`. -/
def VertexId.offset (v : VertexId) : Nat := v.val

/-- Embeds `pub fn to_usize(&self) -> usize { self.0 as usize }`: widening a
u32 to usize is exact on every supported target (usize is at least 32 bits). -/
def VertexId.to_usize (v : VertexId) : Nat := v.val

/-- Embeds `pub fn from_usize(v: usize) -> Self { VertexId(v as Index) }`:
the `as` cast from usize to u32 truncates, keeping the value modulo 2^32. -/
def VertexId.from_usize (v : Nat) : VertexId := ⟨v % u32Size⟩

/-- Embeds `impl Add<u32> for VertexId { fn add(self, rhs: u32) -> Self {
VertexId(self.0 + rhs) } }`. Overflow of the u32 addition is a Rust
arithmetic error (panic when overflow checks are on), modelled as `none`;
a wrapped-around value is never returned as `some`. -/
def VertexId.add (v : VertexId) (rhs : Nat) : Option VertexId :=
  if v.val + rhs < u32Size then some ⟨v.val + rhs⟩ else none

/-- Embeds `impl Sub<u32> for VertexId { fn sub(self, rhs: u32) -> Self {
VertexId(self.0 - rhs) } }`. Underflow of the u32 subtraction is a Rust
arithmetic error, modelled as `none`. -/
def VertexId.sub (v : VertexId) (rhs : Nat) : Option VertexId :=
  if rhs ≤ v.val then some ⟨v.val - rhs⟩ else none

/-- Embeds `impl From<u16> for VertexId`: `VertexId(v as Index)`; the cast
from u16 to u32 zero-extends, preserving the value. -/
def VertexId.fromU16 (n : Nat) : VertexId := ⟨n⟩

/-- Embeds `impl From<u32> for VertexId`: `VertexId(v)`. -/
def VertexId.fromU32 (n : Nat) : VertexId := ⟨n⟩

/-- Embeds `impl From<i32> for VertexId`: `VertexId(v as Index)`; the cast
from i32 to u32 is the two's-complement reinterpretation, i.e. the value
modulo 2^32. -/
def VertexId.fromI32 (n : Int) : VertexId := ⟨(n % (u32Size : Int)).toNat⟩

/-- Embeds `impl From<VertexId> for u16`: `v.0 as u16` truncates to the low
16 bits. -/
def VertexId.toU16 (v : VertexId) : Nat := v.val % u16Size

/-- Embeds `impl From<VertexId> for u32`: `v.0`. -/
def VertexId.toU32 (v : VertexId) : Nat := v.val

/-- Embeds `impl From<VertexId> for i32`: `v.0 as i32` reinterprets the u32
bit pattern as a signed 32-bit value (two's complement). Stated for
well-formed inputs (`val < u32Size`, the u32 type invariant). -/
def VertexId.toI32 (v : VertexId) : Int :=
  if v.val < 2 ^ 31 then (v.val : Int) else (v.val : Int) - (u32Size : Int)

/-- Embeds `impl From<VertexId> for usize`: `v.0 as usize`, an exact
widening. -/
def VertexId.toUsize (v : VertexId) : Nat := v.val

/-- Embeds `pub enum FillRule { EvenOdd, NonZero }`. -/
inductive FillRule
  | EvenOdd
  | NonZero
  deriving DecidableEq, Repr

/-- Embeds the derived `PartialEq` of `FillRule`: structural comparison of
the variant tags. -/
def FillRule.eqv : FillRule → FillRule → Bool
  | .EvenOdd, .EvenOdd => true
  | .NonZero, .NonZero => true
  | _, _ => false

/-- Embeds the derived `Copy`/`Clone` of `FillRule`: a bitwise copy, the
identity on the value. -/
def FillRule.copy (r : FillRule) : FillRule := r

/-- Modelled from the spec: point type used by the builder. The crate's
point type lives in the external geometry-math collaborator (not under
src/); the core stores and replays points without transforming them, so
exact coordinates are modelled as integers. -/
structure Point where
  x : Int
  y : Int
  deriving DecidableEq, Repr

/-- Modelled from the spec: the `PathEvent` vocabulary (`Begin`, `Line`,
`Quadratic`, `Cubic`, `End`) of the `events` module, absent from src/. -/
inductive PathEvent
  | begin (ptAt : Point)
  | line (src dst : Point)
  | quadratic (src ctrl dst : Point)
  | cubic (src ctrl1 ctrl2 dst : Point)
  | endp (last first : Point) (close : Bool)
  deriving DecidableEq, Repr

/-- Modelled from the spec: the error taxonomy of the builder; an
edge-drawing operation with no open subpath fails with `InvalidState`. -/
inductive PathError
  | InvalidState
  deriving DecidableEq, Repr

/-- Modelled from the spec: the `PathBuilder` plus its `PathState` (current
pen position, subpath start, trailing control point, subpath-open flag) of
the `builder` and `path_state` modules, absent from src/, together with the
event buffer it appends to. -/
structure PathBuilder where
  events : List PathEvent
  current : Point
  firstPt : Point
  lastCtrl : Option Point
  isOpen : Bool
  deriving DecidableEq, Repr

/-- Modelled from the spec: `Path::builder()`, the fresh builder with empty
buffers and no subpath open. -/
def PathBuilder.new : PathBuilder :=
  { events := [], current := ⟨0, 0⟩, firstPt := ⟨0, 0⟩, lastCtrl := none,
    isOpen := false }

/-- Modelled from the spec: `move_to` is always valid; if a subpath is open
it is first implicitly ended with `close = false`, then a `Begin` is
appended and the new point becomes both current position and subpath
start. -/
def PathBuilder.move_to (b : PathBuilder) (p : Point) : PathBuilder :=
  let evs := if b.isOpen then b.events ++ [.endp b.current b.firstPt false]
             else b.events
  { events := evs ++ [.begin p], current := p, firstPt := p,
    lastCtrl := none, isOpen := true }

/-- Modelled from the spec: `line_to` requires an open subpath, else fails
with `InvalidState` leaving the builder untouched; on success it appends a
`Line` from the current position, moves the pen, and clears the trailing
control point. -/
def PathBuilder.line_to (b : PathBuilder) (p : Point) :
    Except PathError PathBuilder :=
  if b.isOpen then
    .ok { b with events := b.events ++ [.line b.current p], current := p,
                 lastCtrl := none }
  else .error .InvalidState

/-- Modelled from the spec: `quadratic_bezier_to` requires an open subpath;
on success it appends a `Quadratic` and records the control point as the
trailing control point. -/
def PathBuilder.quadratic_bezier_to (b : PathBuilder) (ctrl p : Point) :
    Except PathError PathBuilder :=
  if b.isOpen then
    .ok { b with events := b.events ++ [.quadratic b.current ctrl p],
                 current := p, lastCtrl := some ctrl }
  else .error .InvalidState

/-- Modelled from the spec: `cubic_bezier_to` requires an open subpath; on
success it appends a `Cubic` and records the second control point as the
trailing control point. -/
def PathBuilder.cubic_bezier_to (b : PathBuilder) (c1 c2 p : Point) :
    Except PathError PathBuilder :=
  if b.isOpen then
    .ok { b with events := b.events ++ [.cubic b.current c1 c2 p],
                 current := p, lastCtrl := some c2 }
  else .error .InvalidState

/-- Modelled from the spec: the reflection of point `p` about `center`,
used for smooth-continuation control-point inference. -/
def Point.reflect (center p : Point) : Point :=
  ⟨2 * center.x - p.x, 2 * center.y - p.y⟩

/-- Modelled from the spec: the implied leading control point of a smooth
curve command: the reflection of the recorded trailing control point about
the current position, or the current position when none is recorded. -/
def PathBuilder.smoothCtrl (b : PathBuilder) : Point :=
  match b.lastCtrl with
  | some c => Point.reflect b.current c
  | none => b.current

/-- Modelled from the spec: `smooth_quadratic_bezier_to` computes the
implied control point and delegates to `quadratic_bezier_to`. -/
def PathBuilder.smooth_quadratic_bezier_to (b : PathBuilder) (p : Point) :
    Except PathError PathBuilder :=
  b.quadratic_bezier_to b.smoothCtrl p

/-- Modelled from the spec: `smooth_cubic_bezier_to` computes the implied
first control point and delegates to `cubic_bezier_to`. -/
def PathBuilder.smooth_cubic_bezier_to (b : PathBuilder) (c2 p : Point) :
    Except PathError PathBuilder :=
  b.cubic_bezier_to b.smoothCtrl c2 p

/-- Modelled from the spec: `arc_to` requires an open subpath, else fails
with `InvalidState`; on success it delegates to the external
arc-to-cubic-curve conversion (here the supplied list of
`(ctrl1, ctrl2, to)` cubic segments) and appends each resulting segment the
same way `cubic_bezier_to` does. -/
def PathBuilder.arc_to (b : PathBuilder)
    (segs : List (Point × Point × Point)) : Except PathError PathBuilder :=
  if b.isOpen then
    .ok (segs.foldl (fun acc s =>
      { acc with events := acc.events ++ [.cubic acc.current s.1 s.2.1 s.2.2],
                 current := s.2.2, lastCtrl := some s.2.1 }) b)
  else .error .InvalidState

/-- Modelled from the spec: `close` with an open subpath appends
`End { close := true }` using the subpath start as `first` and leaves the
subpath-open state; with no open subpath it is a harmless no-op. -/
def PathBuilder.close (b : PathBuilder) : PathBuilder :=
  if b.isOpen then
    { b with events := b.events ++ [.endp b.current b.firstPt true],
             lastCtrl := none, isOpen := false }
  else b

/-- Modelled from the spec: `build` finalizes the path; a still-open
subpath is implicitly ended with `close = false`. The finished immutable
path is its event sequence. -/
def PathBuilder.build (b : PathBuilder) : List PathEvent :=
  if b.isOpen then b.events ++ [.endp b.current b.firstPt false]
  else b.events

/-- Shorthand for a concrete point. -/
def pt (x y : Int) : Point := ⟨x, y⟩

/-- The crate-doc scenario: move_to(0,0); line_to(1,2); line_to(2,0);
line_to(1,1); close(); build(). -/
def scenarioEvents : Except PathError (List PathEvent) := do
  let b := PathBuilder.new.move_to (pt 0 0)
  let b ← b.line_to (pt 1 2)
  let b ← b.line_to (pt 2 0)
  let b ← b.line_to (pt 1 1)
  pure b.close.build

/-- C1: under `v.offset() + n <= u32::MAX` the addition yields
`VertexId(v.offset() + n)`, under `n <= v.offset()` the subtraction yields
`VertexId(v.offset() - n)`, and neither operation ever returns a value
reduced modulo 2^32: whenever a result is produced at all it is the exact
sum or difference, and otherwise the overflow is reported (`none`, the
Rust arithmetic-overflow error) rather than silently wrapped. -/
theorem vertexId_arith_no_silent_wrap (v : VertexId) (n : Nat)
    (hv : v.val < u32Size) (hn : n < u32Size) :
    (v.offset + n ≤ u32MAXval → v.add n = some ⟨v.offset + n⟩) ∧
    (n ≤ v.offset → v.sub n = some ⟨v.offset - n⟩) ∧
    (∀ w, v.add n = some w → w.offset = v.offset + n) ∧
    (∀ w, v.sub n = some w → w.offset = v.offset - n) := by
  refine ⟨fun h => ?_, fun h => ?_, fun w hw => ?_, fun w hw => ?_⟩
  · simp only [VertexId.add, VertexId.offset] at *
    rw [if_pos]
    simp only [u32MAXval, u32Size] at *
    omega
  · simp only [VertexId.sub, VertexId.offset] at *
    rw [if_pos h]
  · simp only [VertexId.add, VertexId.offset] at *
    split at hw
    · cases hw; rfl
    · cases hw
  · simp only [VertexId.sub, VertexId.offset] at *
    split at hw
    · cases hw; rfl
    · cases hw

/-- Witness for C1 at `v = VertexId 5`, `n = 3`. -/
theorem vertexId_arith_no_silent_wrap_witness :
    (VertexId.mk 5).val < u32Size ∧ (3 : Nat) < u32Size ∧
    (VertexId.mk 5).add 3 = some ⟨8⟩ ∧ (VertexId.mk 5).sub 3 = some ⟨2⟩ := by
  refine ⟨by decide, by decide, ?_, ?_⟩
  · exact (vertexId_arith_no_silent_wrap ⟨5⟩ 3 (by decide) (by decide)).1
      (by decide)
  · exact (vertexId_arith_no_silent_wrap ⟨5⟩ 3 (by decide) (by decide)).2.1
      (by decide)

/-- C2: `VertexId::INVALID` has offset `u32::MAX = 4294967295`, the largest
value of the 32-bit unsigned `Index` type. -/
theorem vertexId_INVALID_is_max :
    VertexId.INVALID.offset = u32MAXval ∧ u32MAXval = 4294967295 ∧
    (∀ m : Nat, m < u32Size → m ≤ VertexId.INVALID.offset) := by
  refine ⟨rfl, by decide, fun m hm => ?_⟩
  simp only [VertexId.INVALID, VertexId.offset, u32MAXval, u32Size] at *
  omega

/-- C3: conversions between `VertexId` and u16 are total functions; the
narrowing direction truncates (`u16::from(v) = v.offset() mod 2^16`) and
the widening direction zero-extends (`VertexId::from(n)` stores exactly
`n`). -/
theorem vertexId_u16_conversions (v : VertexId) (n : Nat)
    (hn : n < u16Size) :
    v.toU16 = v.offset % 2 ^ 16 ∧
    (VertexId.fromU16 n).offset = n ∧ (VertexId.fromU16 n).offset < u32Size := by
  refine ⟨rfl, rfl, ?_⟩
  simp only [VertexId.fromU16, VertexId.offset, u16Size, u32Size] at *
  omega

/-- Witness for C3 at `v = VertexId 70000`, `n = 65535`. -/
theorem vertexId_u16_conversions_witness :
    (65535 : Nat) < u16Size ∧
    (VertexId.mk 70000).toU16 = 70000 % 2 ^ 16 ∧
    (VertexId.fromU16 65535).offset = 65535 :=
  ⟨by decide, (vertexId_u16_conversions ⟨70000⟩ 65535 (by decide)).1,
    (vertexId_u16_conversions ⟨70000⟩ 65535 (by decide)).2.1⟩

/-- C4: conversions between `VertexId` and i32 are total functions.
`VertexId::from(v: i32)` stores `v mod 2^32` (two's-complement
reinterpretation), so every negative input maps to an offset at or above
2^31; `i32::from(w)` is the signed reinterpretation of the offset: the
unique value of the signed 32-bit range congruent to the offset modulo
2^32. -/
theorem vertexId_i32_conversions (n : Int) (v : VertexId)
    (hn1 : -(2 ^ 31) ≤ n) (hn2 : n < 2 ^ 31) (hv : v.val < u32Size) :
    ((VertexId.fromI32 n).offset : Int) = n % 2 ^ 32 ∧
    (n < 0 → 2 ^ 31 ≤ (VertexId.fromI32 n).offset) ∧
    (-(2 ^ 31) ≤ v.toI32 ∧ v.toI32 < 2 ^ 31 ∧
      v.toI32 % 2 ^ 32 = (v.offset : Int) % 2 ^ 32) := by
  simp only [VertexId.fromI32, VertexId.offset, VertexId.toI32, u32Size]
    at hv ⊢
  refine ⟨?_, fun hneg => ?_, ?_⟩
  · omega
  · omega
  · split <;> omega

/-- Witness for C4 at `n = -1`, `v = VertexId (2^32 - 1)`. -/
theorem vertexId_i32_conversions_witness :
    -(2 ^ 31) ≤ (-1 : Int) ∧ (-1 : Int) < 2 ^ 31 ∧
    (VertexId.mk 4294967295).val < u32Size ∧
    ((VertexId.fromI32 (-1)).offset : Int) = (-1) % 2 ^ 32 ∧
    (VertexId.mk 4294967295).toI32 % 2 ^ 32 =
      ((VertexId.mk 4294967295).offset : Int) % 2 ^ 32 := by
  refine ⟨by decide, by decide, by decide, ?_, ?_⟩
  · exact (vertexId_i32_conversions (-1) ⟨4294967295⟩ (by decide) (by decide)
      (by decide)).1
  · exact (vertexId_i32_conversions (-1) ⟨4294967295⟩ (by decide) (by decide)
      (by decide)).2.2.2.2

/-- C5: the accessors return the stored 32-bit index unchanged: for every
u32 value `n`, `VertexId(n).offset() = n` and `VertexId(n).to_usize() = n`
(the widening to usize is lossless). -/
theorem vertexId_accessors_identity (n : Nat) (hn : n < u32Size) :
    (VertexId.mk n).offset = n ∧ (VertexId.mk n).to_usize = n :=
  ⟨rfl, rfl⟩

/-- Witness for C5 at `n = 12345`. -/
theorem vertexId_accessors_identity_witness :
    (12345 : Nat) < u32Size ∧
    (VertexId.mk 12345).offset = 12345 ∧ (VertexId.mk 12345).to_usize = 12345 :=
  ⟨by decide, vertexId_accessors_identity 12345 (by decide)⟩

/-- C6: `FillRule` is a closed enumeration with exactly the variants
`EvenOdd` and `NonZero`; its derived equality is value-based (two values
compare equal iff they are the same variant) and its derived copy is the
identity, with no other effect. -/
theorem fillRule_closed_value_type :
    (∀ r : FillRule, r = .EvenOdd ∨ r = .NonZero) ∧
    FillRule.EvenOdd ≠ FillRule.NonZero ∧
    (∀ a b : FillRule, FillRule.eqv a b = true ↔ a = b) ∧
    (∀ r : FillRule, r.copy = r) := by
  refine ⟨fun r => ?_, by decide, fun a b => ?_, fun r => rfl⟩
  · cases r
    · exact Or.inl rfl
    · exact Or.inr rfl
  · cases a <;> cases b <;> simp [FillRule.eqv]

/-- C7: the builder sequence move_to(0,0); line_to(1,2); line_to(2,0);
line_to(1,1); close(); build() produces a path iterating as exactly
Begin(0,0), Line (0,0)-(1,2), Line (1,2)-(2,0), Line (2,0)-(1,1),
End last=(1,1) first=(0,0) close=true, and nothing else. -/
theorem builder_concrete_scenario :
    scenarioEvents = .ok
      [.begin (pt 0 0),
       .line (pt 0 0) (pt 1 2),
       .line (pt 1 2) (pt 2 0),
       .line (pt 2 0) (pt 1 1),
       .endp (pt 1 1) (pt 0 0) true] := by
  rfl

/-- C8: every edge-drawing operation (`line_to`, `quadratic_bezier_to`,
`cubic_bezier_to`, `arc_to` and the smooth variants) invoked while no
subpath is open fails with `InvalidState`; no partial event is appended
(the error result carries no modified builder, so the buffers are
unchanged). -/
theorem edge_ops_reject_without_subpath (b : PathBuilder)
    (h : b.isOpen = false) (p c c1 c2 : Point)
    (segs : List (Point × Point × Point)) :
    b.line_to p = .error .InvalidState ∧
    b.quadratic_bezier_to c p = .error .InvalidState ∧
    b.cubic_bezier_to c1 c2 p = .error .InvalidState ∧
    b.smooth_quadratic_bezier_to p = .error .InvalidState ∧
    b.smooth_cubic_bezier_to c2 p = .error .InvalidState ∧
    b.arc_to segs = .error .InvalidState := by
  simp [PathBuilder.line_to, PathBuilder.quadratic_bezier_to,
    PathBuilder.cubic_bezier_to, PathBuilder.smooth_quadratic_bezier_to,
    PathBuilder.smooth_cubic_bezier_to, PathBuilder.arc_to, h]

/-- Witness for C8: a fresh builder has no subpath open and rejects a
line_to, and a builder closed with no subsequent move_to does too. -/
theorem edge_ops_reject_without_subpath_witness :
    PathBuilder.new.isOpen = false ∧
    PathBuilder.new.line_to (pt 1 1) = .error .InvalidState ∧
    ((PathBuilder.new.move_to (pt 0 0)).close.isOpen = false ∧
      (PathBuilder.new.move_to (pt 0 0)).close.line_to (pt 1 1) =
        .error .InvalidState) :=
  ⟨rfl,
    (edge_ops_reject_without_subpath PathBuilder.new rfl (pt 1 1) (pt 0 0)
      (pt 0 0) (pt 0 0) []).1,
    rfl,
    (edge_ops_reject_without_subpath (PathBuilder.new.move_to (pt 0 0)).close
      rfl (pt 1 1) (pt 0 0) (pt 0 0) (pt 0 0) []).1⟩

/-- C9: each integer-to-VertexId conversion followed by the matching
VertexId-to-integer conversion is the identity, for u16, u32 and i32 values
in range, for well-formed VertexIds through u32, and through
to_usize/from_usize. -/
theorem vertexId_conversion_roundtrips (n16 n32 : Nat) (m : Int)
    (v : VertexId) (h16 : n16 < u16Size) (h32 : n32 < u32Size)
    (hm1 : -(2 ^ 31) ≤ m) (hm2 : m < 2 ^ 31) (hv : v.val < u32Size) :
    (VertexId.fromU16 n16).toU16 = n16 ∧
    (VertexId.fromU32 n32).toU32 = n32 ∧
    VertexId.fromU32 v.toU32 = v ∧
    (VertexId.fromI32 m).toI32 = m ∧
    VertexId.from_usize v.to_usize = v := by
  refine ⟨?_, rfl, rfl, ?_, ?_⟩
  · simp only [VertexId.fromU16, VertexId.toU16, u16Size] at *
    omega
  · simp only [VertexId.fromI32, VertexId.toI32, u32Size]
    split <;> omega
  · simp only [VertexId.from_usize, VertexId.to_usize, u32Size] at *
    congr 1
    omega

/-- Witness for C9 at `n16 = 513`, `n32 = 4294967295`, `m = -2147483648`,
`v = VertexId 7`. -/
theorem vertexId_conversion_roundtrips_witness :
    (513 : Nat) < u16Size ∧ (4294967295 : Nat) < u32Size ∧
    -(2 ^ 31) ≤ (-2147483648 : Int) ∧ (-2147483648 : Int) < 2 ^ 31 ∧
    (VertexId.mk 7).val < u32Size ∧
    ((VertexId.fromU16 513).toU16 = 513 ∧
      (VertexId.fromU32 4294967295).toU32 = 4294967295 ∧
      VertexId.fromU32 (VertexId.mk 7).toU32 = ⟨7⟩ ∧
      (VertexId.fromI32 (-2147483648)).toI32 = -2147483648 ∧
      VertexId.from_usize (VertexId.mk 7).to_usize = ⟨7⟩) :=
  ⟨by decide, by decide, by decide, by decide, by decide,
    vertexId_conversion_roundtrips 513 4294967295 (-2147483648) ⟨7⟩
      (by decide) (by decide) (by decide) (by decide) (by decide)⟩

/-- C10: `VertexId::from_usize` is total and silently truncates the usize
input to 32 bits (`v mod 2^32`); in particular `from_usize(2^32)` yields
`VertexId(0)` and `from_usize(2^32 - 1)` yields `VertexId::INVALID`,
without any failure. -/
theorem from_usize_truncates :
    (∀ v : Nat, VertexId.from_usize v = ⟨v % 2 ^ 32⟩) ∧
    VertexId.from_usize (2 ^ 32) = ⟨0⟩ ∧
    VertexId.from_usize (2 ^ 32 - 1) = VertexId.INVALID := by
  refine ⟨fun v => rfl, by decide, by decide⟩

end Lyon
